import Mathlib

/-!
Verification of the topic/reply core of `src/lib/subject/index.ts`.

The data model and operations below are a shallow embedding of the TypeScript
source: `GroupTopic` and `GroupPost` are the stored rows, `scoredUpdateTime`
is the gravity-decay ranking transform (lines 435-446), the topic update of
`createTopicReply` (lines 410-419) is `createTopicReplyTopicUpdate`,
`fetchTopicList` (lines 328-365) is the listing path, and `fetchDetail`
(lines 246-316) is the thread assembler.  Unix timestamps are `Int`, counts
are `Nat`, and the double-precision arithmetic of the ranking formula is
embedded over `ℝ` (JavaScript `Math.pow`/`Math.trunc` on finite doubles).

Functions imported from `app/lib/topic/display` (`CanViewTopicContent`,
`filterReply`, `ListTopicDisplays`) are not part of the source tree; they are
modelled from the spec and marked as such in their doc comments.
-/

/-- The `Type` const enum of the source (`group`/`subject`); renamed because
`Type` is a Lean keyword. -/
inductive TopicType where
  | group
  | subject
deriving DecidableEq

/- Numeric values of the `ReplyState`/`CommentState` const enums. -/
namespace ReplyState

def Normal : Nat := 0

def AdminCloseTopic : Nat := 1

def AdminReopen : Nat := 2

def AdminPin : Nat := 3

def AdminMerge : Nat := 4

def AdminSilentTopic : Nat := 5

def UserDelete : Nat := 6

def AdminDelete : Nat := 7

end ReplyState

/- Numeric values of the `TopicDisplay` const enum. -/
namespace TopicDisplay

def Ban : Nat := 0

def Normal : Nat := 1

def Review : Nat := 2

end TopicDisplay

/-- A row of the group-topic table, with the columns the source reads:
`id`, `gid` (owning group), `creatorID`, `title`, `dateline`, `lastpost`,
`replies`, `display`, `state`. -/
structure GroupTopic where
  id : Nat
  gid : Nat
  creatorID : Nat
  title : String
  dateline : Int
  lastpost : Int
  replies : Nat
  display : Nat
  state : Nat
deriving DecidableEq

/-- A row of the group-post table: `id`, `topicID`, `uid` (creator),
`related` (0 for the top post and top-level replies, otherwise the id of the
reply this one answers), `content`, `state`, `dateline`. -/
structure GroupPost where
  id : Nat
  topicID : Nat
  uid : Nat
  related : Nat
  content : String
  state : Nat
  dateline : Int
deriving DecidableEq

/-- JavaScript `Math.trunc`: truncation toward zero. -/
noncomputable def jstrunc (x : ℝ) : Int :=
  if 0 ≤ x then ⌊x⌋ else ⌈x⌉

/-- The literal allow-list `[364]` that `scoredUpdateTime` tests with
`includes`. -/
def rankingAllowList : List Nat := [364]

/-- Embeds `scoredUpdateTime` (src/lib/subject/index.ts:435-446): for a group
topic whose own `id` is in the allow-list and whose stored reply count is
positive, pull the timestamp back by the gravity-decay score; otherwise return
the event timestamp unchanged. -/
noncomputable def scoredUpdateTime (timestamp : Int) (type : TopicType)
    (main_info : GroupTopic) : Int :=
  if type = TopicType.group ∧ main_info.id ∈ rankingAllowList ∧ 0 < main_info.replies then
    let created_at : Int := main_info.dateline
    let created_hours : ℝ := ((timestamp - created_at : Int) : ℝ) / 3600
    let gravity : ℝ := 1.8
    let base_score : ℝ := (created_hours + 0.1) ^ gravity / (main_info.replies : ℝ) * 200
    let scored_lastpost : Int := jstrunc ((timestamp : ℝ) - base_score)
    min scored_lastpost timestamp
  else
    timestamp

/-- The gravity-decay formula exactly as the spec words it (§4.3):
`ageHours = (eventTime - createdAt) / 3600`, `gravity = 1.8`,
`decay = ((ageHours + 0.1) ^ gravity / repliesCountBeforeThisReply) * 200`,
`candidate = trunc(eventTime - decay)` (truncation toward zero per the spec's
numeric-semantics clause), result `min(candidate, eventTime)`.  Kept separate
from `scoredUpdateTime` so that the code can be compared against the spec's
own wording. -/
noncomputable def specGravity (eventTime createdAt : Int) (repliesBefore : Nat) : Int :=
  let ageHours : ℝ := ((eventTime - createdAt : Int) : ℝ) / 3600
  let gravity : ℝ := 1.8
  let decay : ℝ := (ageHours + 0.1) ^ gravity / (repliesBefore : ℝ) * 200
  let candidate : Int := jstrunc ((eventTime : ℝ) - decay)
  min candidate eventTime

/-- The partial topic update built by `createTopicReply`
(src/lib/subject/index.ts:410-417): `replies` is always set to the
pre-increment count plus one; `dateline` starts `undefined` and is assigned
the scored timestamp only when the topic is not admin-sunk. -/
noncomputable def createTopicReplyTopicUpdate (now : Int) (topicType : TopicType)
    (topic : GroupTopic) : Nat × Option Int :=
  (topic.replies + 1,
    if topic.state ≠ ReplyState.AdminSilentTopic then
      some (scoredUpdateTime now topicType topic)
    else
      none)

/-- Applying a partial update to a topic row (`GroupTopicRepo.update`): a
column left `undefined` keeps its stored value, every other column is
untouched. -/
def applyTopicUpdate (t : GroupTopic) (u : Nat × Option Int) : GroupTopic :=
  { t with replies := u.1, dateline := u.2.getD t.dateline }

lemma onePointOne_rpow_pow_five :
    ((1.1:ℝ) ^ (1.8:ℝ)) ^ (5:ℕ) = (1.1:ℝ) ^ (9:ℕ) := by
  rw [← Real.rpow_natCast ((1.1:ℝ) ^ (1.8:ℝ)) 5,
    ← Real.rpow_mul (by norm_num : (0:ℝ) ≤ 1.1),
    ← Real.rpow_natCast (1.1:ℝ) 9]
  congr 1
  norm_num

lemma onePointOne_rpow_gt : (1.185:ℝ) < (1.1:ℝ) ^ (1.8:ℝ) := by
  have hc : (0:ℝ) ≤ (1.1:ℝ) ^ (1.8:ℝ) := (Real.rpow_pos_of_pos (by norm_num) _).le
  refine lt_of_pow_lt_pow_left₀ 5 hc ?_
  rw [onePointOne_rpow_pow_five]
  norm_num

lemma onePointOne_rpow_lt : (1.1:ℝ) ^ (1.8:ℝ) < (1.19:ℝ) := by
  refine lt_of_pow_lt_pow_left₀ 5 (by norm_num) ?_
  rw [onePointOne_rpow_pow_five]
  norm_num

lemma jstrunc_eq_of_bounds (x : ℝ) (n : Int) (h0 : 0 ≤ (n:ℝ)) (h1 : (n:ℝ) ≤ x)
    (h2 : x < (n:ℝ) + 1) : jstrunc x = n := by
  rw [jstrunc, if_pos (le_trans h0 h1)]
  rw [Int.floor_eq_iff]
  exact ⟨h1, h2⟩

lemma specGravity_4600_1000_1 : specGravity 4600 1000 1 = 4362 := by
  have h1 := onePointOne_rpow_gt
  have h2 := onePointOne_rpow_lt
  have htr : jstrunc ((((4600:Int)):ℝ) -
      ((((4600:Int) - (1000:Int) : Int):ℝ) / 3600 + 0.1) ^ (1.8:ℝ) / ((1:ℕ):ℝ) * 200)
      = 4362 := by
    have hbase : (((4600:Int) - (1000:Int) : Int):ℝ) / 3600 + 0.1 = (1.1:ℝ) := by
      norm_num
    rw [hbase]
    refine jstrunc_eq_of_bounds _ 4362 (by norm_num) ?_ ?_
    · push_cast
      nlinarith
    · push_cast
      nlinarith
  show min (jstrunc ((((4600:Int)):ℝ) -
      ((((4600:Int) - (1000:Int) : Int):ℝ) / 3600 + 0.1) ^ (1.8:ℝ) / ((1:ℕ):ℝ) * 200))
      (4600:Int) = 4362
  rw [htr]
  norm_num

lemma scoredUpdateTime_eq_specGravity (t : Int) (info : GroupTopic) :
    scoredUpdateTime t TopicType.group info =
      if info.id ∈ rankingAllowList ∧ 0 < info.replies then
        specGravity t info.dateline info.replies
      else
        t := by
  unfold scoredUpdateTime specGravity
  by_cases h : info.id ∈ rankingAllowList ∧ 0 < info.replies
  · rw [if_pos ⟨rfl, h.1, h.2⟩, if_pos h]
  · rw [if_neg (fun hc => h ⟨hc.2.1, hc.2.2⟩), if_neg h]

/-- The allow-listed topic of the spec's concrete scenario: its own id is 364,
it was created at 1000 and already has one reply. -/
def topic364 : GroupTopic :=
  { id := 364, gid := 364, creatorID := 1, title := "sandbox", dateline := 1000,
    lastpost := 1000, replies := 1, display := TopicDisplay.Normal,
    state := ReplyState.Normal }

lemma scoredUpdateTime_topic364 :
    scoredUpdateTime 4600 TopicType.group topic364 = 4362 := by
  rw [scoredUpdateTime_eq_specGravity]
  rw [if_pos (by constructor <;> decide)]
  exact specGravity_4600_1000_1

/-- A topic whose owning group is the allow-listed container 364 but whose own
id is not in the allow-list. -/
def topicGid364 : GroupTopic :=
  { id := 701, gid := 364, creatorID := 1, title := "inside group 364",
    dateline := 1000, lastpost := 1000, replies := 1,
    display := TopicDisplay.Normal, state := ReplyState.Normal }

/-- An ordinary topic: not allow-listed, not sunk. -/
def wTopicPlain : GroupTopic :=
  { id := 999, gid := 42, creatorID := 2, title := "plain", dateline := 300,
    lastpost := 300, replies := 4, display := TopicDisplay.Normal,
    state := ReplyState.Normal }

/-- C9: for every event time, topic type and topic row, the ranking transform
returns a value less than or equal to the event time. -/
theorem scoredUpdateTime_le_eventTime (t : Int) (ty : TopicType) (info : GroupTopic) :
    scoredUpdateTime t ty info ≤ t := by
  unfold scoredUpdateTime
  split
  · exact min_le_right _ _
  · exact le_refl t

/-- C1 (amended): on a non-sunk topic, reply creation sets the sort timestamp
to the spec's gravity-decay formula exactly when the topic's own id (not its
owning container's id) is in the allow-list and the pre-existing reply count is
positive; otherwise it sets it to the event time. -/
theorem createTopicReply_ranking_condition (now : Int) (t : GroupTopic)
    (h : t.state ≠ ReplyState.AdminSilentTopic) :
    (applyTopicUpdate t (createTopicReplyTopicUpdate now TopicType.group t)).dateline =
      if t.id ∈ rankingAllowList ∧ 0 < t.replies then
        specGravity now t.dateline t.replies
      else
        now := by
  unfold applyTopicUpdate createTopicReplyTopicUpdate
  rw [if_pos h]
  simp only [Option.getD_some]
  exact scoredUpdateTime_eq_specGravity now t

/-- Witness for `createTopicReply_ranking_condition` at a concrete non-sunk,
non-allow-listed topic. -/
theorem createTopicReply_ranking_condition_witness :
    wTopicPlain.state ≠ ReplyState.AdminSilentTopic ∧
    (applyTopicUpdate wTopicPlain
        (createTopicReplyTopicUpdate 500 TopicType.group wTopicPlain)).dateline =
      (if wTopicPlain.id ∈ rankingAllowList ∧ 0 < wTopicPlain.replies then
        specGravity 500 wTopicPlain.dateline wTopicPlain.replies
      else
        500) :=
  ⟨by decide, createTopicReply_ranking_condition 500 wTopicPlain (by decide)⟩

/-- C1 counterexample: a topic whose owning container's id is allow-listed and
whose pre-existing reply count is positive, yet the code returns the plain
event time (because the code tests the topic's own id, not the container's),
while the gravity formula would return a strictly earlier value. -/
theorem gravity_condition_ignores_container_id :
    topicGid364.gid ∈ rankingAllowList ∧ 0 < topicGid364.replies ∧
    topicGid364.state ≠ ReplyState.AdminSilentTopic ∧
    scoredUpdateTime 4600 TopicType.group topicGid364 = 4600 ∧
    specGravity 4600 topicGid364.dateline topicGid364.replies ≠ 4600 := by
  refine ⟨by decide, by decide, by decide, ?_, ?_⟩
  · rw [scoredUpdateTime_eq_specGravity, if_neg]
    intro hc
    exact absurd hc.1 (by decide)
  · show specGravity 4600 1000 1 ≠ 4600
    rw [specGravity_4600_1000_1]
    decide

/-- C2 (code bug evidence): the field `scoredUpdateTime` reads as the creation
instant (`main_info.dateline`) is the very field the reply-creation update
overwrites with the scored value: after one reply to `topic364` at time 4600
the stored `dateline` is 4362, no longer the creation instant 1000, so the
next reply's age term is computed from a mutated baseline. -/
theorem createTopicReply_overwrites_age_baseline :
    topic364.dateline = 1000 ∧
    (applyTopicUpdate topic364
        (createTopicReplyTopicUpdate 4600 TopicType.group topic364)).dateline = 4362 := by
  refine ⟨rfl, ?_⟩
  unfold applyTopicUpdate createTopicReplyTopicUpdate
  rw [if_pos (by decide)]
  simp only [Option.getD_some]
  exact scoredUpdateTime_topic364

/-- C3 counterexample: on the spec's concrete scenario (allow-listed topic,
creation instant 1000, one pre-existing reply, event time 4600) the code does
not produce 4379. -/
theorem spec_scenario_not_4379 :
    scoredUpdateTime 4600 TopicType.group topic364 ≠ 4379 := by
  rw [scoredUpdateTime_topic364]
  decide

/-- C3 (amended): on the spec's concrete scenario the code yields 4362, via
decay = 200 * 1.1 ^ 1.8 which lies strictly between 237 and 238 (the spec's
value 220.5 for the decay is a miscalculation of 1.1 ^ 1.8). -/
theorem spec_scenario_value :
    scoredUpdateTime 4600 TopicType.group topic364 = 4362 :=
  scoredUpdateTime_topic364

/-- C5: for an admin-sunk topic, the reply-creation update increments the
reply counter by exactly one and changes nothing else: the whole updated row
equals the old row with only `replies` bumped (in particular `dateline`, the
sort timestamp, is untouched). -/
theorem createTopicReply_sunk_frame (now : Int) (ty : TopicType) (t : GroupTopic)
    (h : t.state = ReplyState.AdminSilentTopic) :
    applyTopicUpdate t (createTopicReplyTopicUpdate now ty t) =
      { t with replies := t.replies + 1 } := by
  unfold applyTopicUpdate createTopicReplyTopicUpdate
  rw [if_neg (fun hne => hne h)]
  rfl

/-- A concrete admin-sunk topic. -/
def wSunkTopic : GroupTopic :=
  { id := 10, gid := 20, creatorID := 3, title := "sunk", dateline := 111,
    lastpost := 222, replies := 7, display := TopicDisplay.Normal,
    state := ReplyState.AdminSilentTopic }

/-- Witness for `createTopicReply_sunk_frame` at a concrete sunk topic. -/
theorem createTopicReply_sunk_frame_witness :
    wSunkTopic.state = ReplyState.AdminSilentTopic ∧
    applyTopicUpdate wSunkTopic
        (createTopicReplyTopicUpdate 999 TopicType.group wSunkTopic) =
      { wSunkTopic with replies := wSunkTopic.replies + 1 } :=
  ⟨rfl, createTopicReply_sunk_frame 999 TopicType.group wSunkTopic rfl⟩

/-- The slice of the actor (`IAuth`) that the listing path consumes: whether
the actor has an elevated moderation role. -/
structure IAuth where
  admin : Bool
deriving DecidableEq

/-- Modelled from the spec: `ListTopicDisplays` from `app/lib/topic/display`,
which is not under src/.  Per the spec it returns the display states the actor
may list: Normal is always included, elevated roles additionally see Ban and
Review. -/
def ListTopicDisplays (a : IAuth) : List Nat :=
  if a.admin then [TopicDisplay.Ban, TopicDisplay.Normal, TopicDisplay.Review]
  else [TopicDisplay.Normal]

/-- The `where` clause of `fetchTopicList`: `gid` matches and `display` is in
the actor's listable set. -/
def topicWhere (a : IAuth) (gid : Nat) (t : GroupTopic) : Bool :=
  t.gid == gid && (ListTopicDisplays a).contains t.display

/-- One step of the store's stable `ORDER BY dateline DESC`: place `x` before
the first already-placed row whose `dateline` does not exceed `x`'s, so ties
keep their relative (insertion) order. -/
def insertDesc (x : GroupTopic) : List GroupTopic → List GroupTopic
  | [] => [x]
  | y :: ys => if y.dateline ≤ x.dateline then x :: y :: ys else y :: insertDesc x ys

/-- The store's `order: dateline desc` on a table scanned in insertion order,
modelled as a stable insertion sort. -/
def sortByDatelineDesc (l : List GroupTopic) : List GroupTopic :=
  l.foldr insertDesc []

/-- The topic summary `fetchTopicList` maps each row to
(src/lib/subject/index.ts:353-362). -/
structure ITopic where
  id : Nat
  parentID : Nat
  creatorID : Nat
  updatedAt : Int
  createdAt : Int
  title : String
  repliesCount : Nat
deriving DecidableEq

/-- The row-to-summary mapping of `fetchTopicList`: `createdAt` is the
`dateline` column (the mutable sort key) and `updatedAt` is `lastpost`. -/
def toITopic (x : GroupTopic) : ITopic :=
  { id := x.id, parentID := x.gid, creatorID := x.creatorID, title := x.title,
    createdAt := x.dateline, updatedAt := x.lastpost, repliesCount := x.replies }

/-- Error kinds surfaced by the listing path. -/
inductive AppError where
  | unimplemented
  | validation
deriving DecidableEq

/-- Embeds `fetchTopicList` (src/lib/subject/index.ts:328-365): reject
non-group containers, then count the display-filtered rows (independent of the
page slice) and return the page of summaries, sorted by `dateline`
descending. -/
def fetchTopicList (a : IAuth) (ty : TopicType) (gid : Nat) (limit offset : Nat)
    (table : List GroupTopic) : Except AppError (Nat × List ITopic) :=
  if ty ≠ TopicType.group then
    Except.error AppError.unimplemented
  else
    let rows := table.filter (topicWhere a gid)
    let total := rows.length
    let topics := ((sortByDatelineDesc rows).drop offset).take limit
    Except.ok (total, topics.map toITopic)

/-- Modelled from the spec: the request layer validates pagination bounds
before any store access (spec §7: validation errors are rejected before any
store access); the route-level validation is not under src/.  A negative
limit or offset is rejected; otherwise the call is delegated to
`fetchTopicList`. -/
def listTopics (a : IAuth) (ty : TopicType) (gid : Nat) (limit offset : Int)
    (table : List GroupTopic) : Except AppError (Nat × List ITopic) :=
  if limit < 0 ∨ offset < 0 then
    Except.error AppError.validation
  else
    fetchTopicList a ty gid limit.toNat offset.toNat table

/-- The intended order of a topic listing: `dateline` strictly descending,
ties in ascending id order. -/
def topicKey (x y : GroupTopic) : Prop :=
  y.dateline < x.dateline ∨ (x.dateline = y.dateline ∧ x.id < y.id)

lemma insertDesc_mem (x : GroupTopic) (m : List GroupTopic) (y : GroupTopic) :
    y ∈ insertDesc x m ↔ y = x ∨ y ∈ m := by
  induction m with
  | nil => simp [insertDesc]
  | cons z zs ih =>
      by_cases h : z.dateline ≤ x.dateline
      · rw [insertDesc, if_pos h]
        simp only [List.mem_cons]
      · rw [insertDesc, if_neg h]
        simp only [List.mem_cons, ih]
        tauto

lemma insertDesc_pairwise (x : GroupTopic) (m : List GroupTopic)
    (hm : m.Pairwise topicKey) (hx : ∀ y ∈ m, x.id < y.id) :
    (insertDesc x m).Pairwise topicKey := by
  induction m with
  | nil => simp [insertDesc]
  | cons y ys ih =>
      rw [List.pairwise_cons] at hm
      by_cases h : y.dateline ≤ x.dateline
      · rw [insertDesc, if_pos h, List.pairwise_cons]
        constructor
        · intro z hz
          have hxz := hx z hz
          rcases List.mem_cons.mp hz with rfl | hzys
          · unfold topicKey
            omega
          · have hyz := hm.1 z hzys
            unfold topicKey at hyz ⊢
            omega
        · exact List.pairwise_cons.mpr hm
      · rw [insertDesc, if_neg h, List.pairwise_cons]
        constructor
        · intro z hz
          rcases (insertDesc_mem x ys z).mp hz with rfl | hzys
          · unfold topicKey
            omega
          · exact hm.1 z hzys
        · exact ih hm.2 (fun z hz => hx z (List.mem_cons_of_mem y hz))

lemma sortByDatelineDesc_mem (l : List GroupTopic) (y : GroupTopic) :
    y ∈ sortByDatelineDesc l ↔ y ∈ l := by
  induction l with
  | nil => simp [sortByDatelineDesc]
  | cons x xs ih =>
      show y ∈ insertDesc x (sortByDatelineDesc xs) ↔ y ∈ x :: xs
      rw [insertDesc_mem, ih, List.mem_cons]

lemma sortByDatelineDesc_pairwise (l : List GroupTopic)
    (h : l.Pairwise fun a b => a.id < b.id) :
    (sortByDatelineDesc l).Pairwise topicKey := by
  induction l with
  | nil =>
      show List.Pairwise topicKey []
      simp
  | cons x xs ih =>
      rw [List.pairwise_cons] at h
      show (insertDesc x (sortByDatelineDesc xs)).Pairwise topicKey
      refine insertDesc_pairwise x _ (ih h.2) ?_
      intro y hy
      exact h.1 y ((sortByDatelineDesc_mem xs y).mp hy)

/-- C6: every successful topic listing is sorted by the sort-key column
descending, with equal sort keys ordered by id ascending, provided the table
is scanned in insertion order (ids ascending). -/
theorem fetchTopicList_sorted (a : IAuth) (ty : TopicType) (gid limit offset : Nat)
    (table : List GroupTopic) (total : Nat) (ts : List ITopic)
    (hids : table.Pairwise fun x y => x.id < y.id)
    (h : fetchTopicList a ty gid limit offset table = Except.ok (total, ts)) :
    ts.Pairwise fun x y =>
      y.createdAt < x.createdAt ∨ (x.createdAt = y.createdAt ∧ x.id < y.id) := by
  unfold fetchTopicList at h
  split at h
  · exact absurd h (by simp)
  · injection h with h1
    rw [Prod.mk.injEq] at h1
    obtain ⟨-, hts⟩ := h1
    subst hts
    apply List.pairwise_map.mpr
    have hfil : (table.filter (topicWhere a gid)).Pairwise fun x y => x.id < y.id :=
      hids.filter _
    have hsort := sortByDatelineDesc_pairwise _ hfil
    have hsub :
        (((sortByDatelineDesc (table.filter (topicWhere a gid))).drop offset).take limit).Sublist
          (sortByDatelineDesc (table.filter (topicWhere a gid))) :=
      (List.take_sublist _ _).trans (List.drop_sublist _ _)
    have hfinal := hsort.sublist hsub
    exact hfinal.imp (fun hk => hk)

deriving instance DecidableEq for Except

/-- A concrete non-elevated actor. -/
def wAuth : IAuth := { admin := false }

/-- A concrete three-row topic table in insertion order, with a `dateline`
tie between the first two rows. -/
def wTable : List GroupTopic :=
  [ { id := 1, gid := 5, creatorID := 0, title := "a", dateline := 100,
      lastpost := 0, replies := 0, display := TopicDisplay.Normal,
      state := ReplyState.Normal },
    { id := 2, gid := 5, creatorID := 0, title := "b", dateline := 100,
      lastpost := 0, replies := 0, display := TopicDisplay.Normal,
      state := ReplyState.Normal },
    { id := 3, gid := 5, creatorID := 0, title := "c", dateline := 200,
      lastpost := 0, replies := 0, display := TopicDisplay.Normal,
      state := ReplyState.Normal } ]

/-- The listing produced from `wTable`. -/
def wOut : List ITopic :=
  [ { id := 3, parentID := 5, creatorID := 0, updatedAt := 0, createdAt := 200,
      title := "c", repliesCount := 0 },
    { id := 1, parentID := 5, creatorID := 0, updatedAt := 0, createdAt := 100,
      title := "a", repliesCount := 0 },
    { id := 2, parentID := 5, creatorID := 0, updatedAt := 0, createdAt := 100,
      title := "b", repliesCount := 0 } ]

/-- Witness for `fetchTopicList_sorted` on a concrete table with a tie. -/
theorem fetchTopicList_sorted_witness :
    (wTable.Pairwise fun x y => x.id < y.id) ∧
    fetchTopicList wAuth TopicType.group 5 30 0 wTable = Except.ok (3, wOut) ∧
    wOut.Pairwise (fun x y =>
      y.createdAt < x.createdAt ∨ (x.createdAt = y.createdAt ∧ x.id < y.id)) :=
  ⟨by decide, by decide,
    fetchTopicList_sorted wAuth TopicType.group 5 30 0 wTable 3 wOut
      (by decide) (by decide)⟩

/-- C7: a listing request with a negative limit or offset is rejected with a
validation error, and the outcome does not depend on the stored table (no
count and no topic fetch is consulted). -/
theorem listTopics_rejects_negative_page (a : IAuth) (ty : TopicType) (gid : Nat)
    (limit offset : Int) (table : List GroupTopic)
    (h : limit < 0 ∨ offset < 0) :
    listTopics a ty gid limit offset table = Except.error AppError.validation ∧
    listTopics a ty gid limit offset table = listTopics a ty gid limit offset [] := by
  unfold listTopics
  rw [if_pos h, if_pos h]
  exact ⟨rfl, rfl⟩

/-- Witness for `listTopics_rejects_negative_page` at limit -1. -/
theorem listTopics_rejects_negative_page_witness :
    ((-1 : Int) < 0 ∨ (0 : Int) < 0) ∧
    (listTopics wAuth TopicType.group 5 (-1) 0 wTable = Except.error AppError.validation ∧
      listTopics wAuth TopicType.group 5 (-1) 0 wTable =
        listTopics wAuth TopicType.group 5 (-1) 0 []) :=
  ⟨by decide,
    listTopics_rejects_negative_page wAuth TopicType.group 5 (-1) 0 wTable (by decide)⟩

/-- The sub-reply view (`ISubReply`, an `IBaseReply`). -/
structure ISubReply where
  id : Nat
  repliedTo : Nat
  creatorID : Nat
  text : String
  state : Nat
  createdAt : Int
deriving DecidableEq

/-- The top-level reply view (`IReply`): a base reply plus its nested
sub-replies. -/
structure IReply where
  id : Nat
  repliedTo : Nat
  creatorID : Nat
  text : String
  state : Nat
  createdAt : Int
  replies : List ISubReply
deriving DecidableEq

/-- The sub-reply view built from a post row inside `fetchDetail`
(src/lib/subject/index.ts:277-284). -/
def toSubReply (x : GroupPost) : ISubReply :=
  { id := x.id, repliedTo := x.related, creatorID := x.uid, text := x.content,
    state := x.state, createdAt := x.dateline }

/-- Appending a sub-reply to its bucket in the `Record<number, ISubReply[]>`
(`subReplies[x.related] ??= []; subReplies[x.related]?.push(sub)`): if the key
already has an entry the sub-reply is pushed at its end, otherwise a fresh
one-element bucket is created. -/
def bucketAdd : List (Nat × List ISubReply) → Nat → ISubReply → List (Nat × List ISubReply)
  | [], k, s => [(k, [s])]
  | (q, l) :: rest, k, s =>
      if q = k then (q, l ++ [s]) :: rest else (q, l) :: bucketAdd rest k s

/-- The `subReplies` record of `fetchDetail` (src/lib/subject/index.ts:274-288):
a single pass over the posts with `related !== 0`, bucketed by `related`. -/
def buildSubReplies (rs : List GroupPost) : List (Nat × List ISubReply) :=
  (rs.filter fun x => x.related != 0).foldl
    (fun m x => bucketAdd m x.related (toSubReply x)) []

/-- Reading `subReplies[x.id] ?? []`. -/
def lookupBucket : List (Nat × List ISubReply) → Nat → List ISubReply
  | [], _ => []
  | (q, l) :: rest, k => if q = k then l else lookupBucket rest k

/-- Modelled from the spec: the sub-reply half of the redaction transform of
`filterReply` from `app/lib/topic/display`, which is not under src/.  Per the
spec it may blank `content`/`creatorID` but preserves `id`, `repliedTo` and
`state` and never removes a node; modelled as blanking deleted replies. -/
def filterSubReply (s : ISubReply) : ISubReply :=
  if s.state = ReplyState.UserDelete ∨ s.state = ReplyState.AdminDelete then
    { s with text := "", creatorID := 0 }
  else
    s

/-- Modelled from the spec: `filterReply` from `app/lib/topic/display`
(not under src/), applied to every top-level reply and, through it, to its
sub-replies; blanks content of deleted replies while preserving structure. -/
def filterReply (r : IReply) : IReply :=
  let base : IReply := { r with replies := r.replies.map filterSubReply }
  if r.state = ReplyState.UserDelete ∨ r.state = ReplyState.AdminDelete then
    { base with text := "", creatorID := 0 }
  else
    base

/-- The top-level reply view built from a post row and the bucket map
(src/lib/subject/index.ts:290-302). -/
def mkIReply (rs : List GroupPost) (x : GroupPost) : IReply :=
  { id := x.id, replies := lookupBucket (buildSubReplies rs) x.id,
    creatorID := x.uid, text := x.content, state := x.state,
    createdAt := x.dateline, repliedTo := x.related }

/-- The two-level reply tree `fetchDetail` renders from the reply sequence
with the top post already removed: top-level posts in order, each carrying its
bucket of sub-replies, then the redaction transform
(src/lib/subject/index.ts:290-303). -/
def renderReplies (rs : List GroupPost) : List IReply :=
  ((rs.filter fun x => x.related == 0).map (mkIReply rs)).map filterReply

lemma lookupBucket_bucketAdd (m : List (Nat × List ISubReply)) (j k : Nat)
    (s : ISubReply) :
    lookupBucket (bucketAdd m j s) k =
      if j = k then lookupBucket m k ++ [s] else lookupBucket m k := by
  induction m with
  | nil =>
      by_cases h : j = k
      · subst h
        simp [bucketAdd, lookupBucket]
      · simp [bucketAdd, lookupBucket, h]
  | cons p rest ih =>
      obtain ⟨q, l⟩ := p
      by_cases hqj : q = j
      · subst hqj
        by_cases hqk : q = k
        · subst hqk
          simp [bucketAdd, lookupBucket]
        · simp [bucketAdd, lookupBucket, hqk]
      · by_cases hqk : q = k
        · subst hqk
          have hjq : j ≠ q := fun h => hqj h.symm
          simp [bucketAdd, lookupBucket, hqj, hjq]
        · simp [bucketAdd, lookupBucket, hqj, hqk, ih]

lemma lookupBucket_foldl (l : List GroupPost) (m : List (Nat × List ISubReply))
    (k : Nat) :
    lookupBucket (l.foldl (fun m x => bucketAdd m x.related (toSubReply x)) m) k =
      lookupBucket m k ++ (l.filter fun x => x.related == k).map toSubReply := by
  induction l generalizing m with
  | nil => simp
  | cons x xs ih =>
      rw [List.foldl_cons, ih, lookupBucket_bucketAdd]
      by_cases h : x.related = k
      · rw [if_pos h]
        simp [List.filter_cons, h]
      · rw [if_neg h]
        simp [List.filter_cons, h]

lemma lookupBucket_buildSubReplies (rs : List GroupPost) (k : Nat) :
    lookupBucket (buildSubReplies rs) k =
      ((rs.filter fun x => x.related != 0).filter fun x => x.related == k).map
        toSubReply := by
  rw [buildSubReplies, lookupBucket_foldl]
  rfl

lemma filterSubReply_id (s : ISubReply) : (filterSubReply s).id = s.id := by
  unfold filterSubReply
  split <;> rfl

lemma filterSubReply_repliedTo (s : ISubReply) :
    (filterSubReply s).repliedTo = s.repliedTo := by
  unfold filterSubReply
  split <;> rfl

lemma filterReply_id (r : IReply) : (filterReply r).id = r.id := by
  unfold filterReply
  split <;> rfl

lemma filterReply_replies (r : IReply) :
    (filterReply r).replies = r.replies.map filterSubReply := by
  unfold filterReply
  split <;> rfl

lemma mkIReply_id (rs : List GroupPost) (x : GroupPost) :
    (mkIReply rs x).id = x.id := rfl

lemma renderReplies_replies_eq (rs : List GroupPost) (x : GroupPost) :
    (filterReply (mkIReply rs x)).replies =
      ((rs.filter fun p => p.related != 0).filter fun q => q.related == x.id).map
        fun q => filterSubReply (toSubReply q) := by
  rw [filterReply_replies]
  show (lookupBucket (buildSubReplies rs) x.id).map filterSubReply = _
  rw [lookupBucket_buildSubReplies, List.map_map]
  rfl

lemma mem_replies_decomp (rs : List GroupPost) (x : GroupPost) (s : ISubReply)
    (hs : s ∈ (filterReply (mkIReply rs x)).replies) :
    ∃ q, q ∈ rs ∧ q.related = x.id ∧ q.related ≠ 0 ∧
      s = filterSubReply (toSubReply q) := by
  rw [renderReplies_replies_eq] at hs
  rcases List.mem_map.mp hs with ⟨q, hq, rfl⟩
  have h2 := List.mem_filter.mp hq
  have h3 := List.mem_filter.mp h2.1
  refine ⟨q, h3.1, ?_, ?_, rfl⟩
  · simpa using h2.2
  · simpa using h3.2

lemma renderReplies_mem_decomp (rs : List GroupPost) (r : IReply)
    (hr : r ∈ renderReplies rs) :
    ∃ x, x ∈ rs ∧ x.related = 0 ∧ r = filterReply (mkIReply rs x) := by
  unfold renderReplies at hr
  rcases List.mem_map.mp hr with ⟨r0, hr0, rfl⟩
  rcases List.mem_map.mp hr0 with ⟨x, hx, rfl⟩
  have h2 := List.mem_filter.mp hx
  refine ⟨x, h2.1, ?_, rfl⟩
  simpa using h2.2

/-- C4: in every rendered thread (with distinct post ids, the store's primary
key), (1) each sub-reply hangs under a top-level reply whose id equals the
sub-reply's `repliedTo`; (2) the sub-replies of a top-level reply are exactly
the posts answering it, in insertion order; (3) no sub-reply appears twice
anywhere in the tree; (4) a nested post whose `related` matches no top-level
reply id (a reply to a sub-reply) appears nowhere. -/
theorem renderReplies_tree_shape (rs : List GroupPost)
    (hnd : (rs.map GroupPost.id).Nodup) :
    (∀ r ∈ renderReplies rs, ∀ s ∈ r.replies, s.repliedTo = r.id) ∧
    (∀ r ∈ renderReplies rs,
      r.replies = ((rs.filter fun p => p.related != 0).filter fun q =>
        q.related == r.id).map fun q => filterSubReply (toSubReply q)) ∧
    (∀ r₁ ∈ renderReplies rs, ∀ r₂ ∈ renderReplies rs,
      ∀ s₁ ∈ r₁.replies, ∀ s₂ ∈ r₂.replies,
        s₁.id = s₂.id → r₁.id = r₂.id ∧ s₁ = s₂) ∧
    (∀ p ∈ rs, p.related ≠ 0 → (∀ x ∈ rs, x.related = 0 → x.id ≠ p.related) →
      ∀ r ∈ renderReplies rs, ∀ s ∈ r.replies, s.id ≠ p.id) := by
  have hinj := List.inj_on_of_nodup_map hnd
  refine ⟨?_, ?_, ?_, ?_⟩
  · intro r hr s hs
    rcases renderReplies_mem_decomp rs r hr with ⟨x, hxrs, hx0, rfl⟩
    rcases mem_replies_decomp rs x s hs with ⟨q, hqrs, hqx, hq0, rfl⟩
    rw [filterReply_id, mkIReply_id, filterSubReply_repliedTo]
    exact hqx
  · intro r hr
    rcases renderReplies_mem_decomp rs r hr with ⟨x, hxrs, hx0, rfl⟩
    simp only [filterReply_id, mkIReply_id]
    exact renderReplies_replies_eq rs x
  · intro r₁ hr₁ r₂ hr₂ s₁ hs₁ s₂ hs₂ hid
    rcases renderReplies_mem_decomp rs r₁ hr₁ with ⟨x₁, hx₁rs, hx₁0, rfl⟩
    rcases renderReplies_mem_decomp rs r₂ hr₂ with ⟨x₂, hx₂rs, hx₂0, rfl⟩
    rcases mem_replies_decomp rs x₁ s₁ hs₁ with ⟨q₁, hq₁rs, hq₁x, hq₁0, rfl⟩
    rcases mem_replies_decomp rs x₂ s₂ hs₂ with ⟨q₂, hq₂rs, hq₂x, hq₂0, rfl⟩
    rw [filterSubReply_id, filterSubReply_id] at hid
    have hq : q₁ = q₂ := hinj hq₁rs hq₂rs hid
    subst hq
    constructor
    · rw [filterReply_id, filterReply_id, mkIReply_id, mkIReply_id, ← hq₁x, ← hq₂x]
    · rfl
  · intro p hprs hp0 hnotop r hr s hs
    rcases renderReplies_mem_decomp rs r hr with ⟨x, hxrs, hx0, rfl⟩
    rcases mem_replies_decomp rs x s hs with ⟨q, hqrs, hqx, hq0, rfl⟩
    rw [filterSubReply_id]
    intro hqp
    have hq : q = p := hinj hqrs hprs hqp
    subst hq
    exact hnotop x hxrs hx0 (hqx ▸ rfl)

/-- A concrete reply sequence (top post already removed): two top-level
replies (one user-deleted), two sub-replies of the first, and one reply to a
sub-reply (orphaned by the two-level assembly). -/
def wPosts : List GroupPost :=
  [ { id := 2, topicID := 10, uid := 100, related := 0, content := "alpha",
      state := ReplyState.Normal, dateline := 50 },
    { id := 3, topicID := 10, uid := 101, related := 2, content := "beta",
      state := ReplyState.Normal, dateline := 51 },
    { id := 4, topicID := 10, uid := 102, related := 0, content := "gamma",
      state := ReplyState.UserDelete, dateline := 52 },
    { id := 5, topicID := 10, uid := 103, related := 3, content := "delta",
      state := ReplyState.Normal, dateline := 53 },
    { id := 6, topicID := 10, uid := 104, related := 2, content := "epsilon",
      state := ReplyState.Normal, dateline := 54 } ]

/-- Witness for `renderReplies_tree_shape` on the concrete thread `wPosts`. -/
theorem renderReplies_tree_shape_witness :
    (wPosts.map GroupPost.id).Nodup ∧
    ((∀ r ∈ renderReplies wPosts, ∀ s ∈ r.replies, s.repliedTo = r.id) ∧
    (∀ r ∈ renderReplies wPosts,
      r.replies = ((wPosts.filter fun p => p.related != 0).filter fun q =>
        q.related == r.id).map fun q => filterSubReply (toSubReply q)) ∧
    (∀ r₁ ∈ renderReplies wPosts, ∀ r₂ ∈ renderReplies wPosts,
      ∀ s₁ ∈ r₁.replies, ∀ s₂ ∈ r₂.replies,
        s₁.id = s₂.id → r₁.id = r₂.id ∧ s₁ = s₂) ∧
    (∀ p ∈ wPosts, p.related ≠ 0 →
      (∀ x ∈ wPosts, x.related = 0 → x.id ≠ p.related) →
      ∀ r ∈ renderReplies wPosts, ∀ s ∈ r.replies, s.id ≠ p.id)) :=
  ⟨by decide, renderReplies_tree_shape wPosts (by decide)⟩

/-- Modelled from the spec: `CanViewTopicContent` from `app/lib/topic/display`
(not under src/): whether the actor may read the topic's content; per the
spec's visibility scenario, a non-elevated actor may only view topics whose
display state is Normal, while an elevated actor may view the rest. -/
def CanViewTopicContent (a : IAuth) (t : GroupTopic) : Bool :=
  a.admin || (t.display == TopicDisplay.Normal)

/-- `GroupTopicRepo.findOne({ where: { id } })` on the topic table. -/
def findTopic (topics : List GroupTopic) (id : Nat) : Option GroupTopic :=
  topics.find? fun t => t.id == id

/-- The thread view returned by `fetchDetail`
(src/lib/subject/index.ts:233-244 and 305-315). -/
structure ITopicDetails where
  id : Nat
  title : String
  text : String
  display : Nat
  state : Nat
  createdAt : Int
  creatorID : Nat
  parentID : Nat
  replies : List IReply
deriving DecidableEq

/-- The three outcomes of `fetchDetail`: the `null` return (missing topic or
denied visibility), the thrown `UnexpectedNotFoundError` (topic without a top
post), or a rendered thread. -/
inductive DetailResult where
  | notFound
  | consistencyError
  | ok (d : ITopicDetails)
deriving DecidableEq

/-- Embeds `fetchDetail` (src/lib/subject/index.ts:246-316): find the topic
(`null` if absent), check visibility (`null` if denied), load the topic's
posts in insertion order, shift off the top post (consistency error if there
is none) and assemble the two-level tree; the top post's content and creator
are copied into the view directly, without the redaction transform. -/
def fetchDetail (a : IAuth) (id : Nat) (topics : List GroupTopic)
    (posts : List GroupPost) : DetailResult :=
  match findTopic topics id with
  | none => DetailResult.notFound
  | some topic =>
      if ¬CanViewTopicContent a topic then
        DetailResult.notFound
      else
        match posts.filter fun p => p.topicID == topic.id with
        | [] => DetailResult.consistencyError
        | top :: rest =>
            DetailResult.ok
              { id := topic.id, title := topic.title, parentID := topic.gid,
                text := top.content, display := topic.display,
                state := topic.state, replies := renderReplies rest,
                creatorID := top.uid, createdAt := top.dateline }

/-- C8: `fetchDetail` returns the same `notFound` outcome both when no topic
with the id exists and when the visibility policy denies the actor read
access, so the two failure causes are indistinguishable to the caller. -/
theorem fetchDetail_notFound_indistinguishable (a : IAuth) (id : Nat)
    (topics : List GroupTopic) (posts : List GroupPost) :
    (findTopic topics id = none →
      fetchDetail a id topics posts = DetailResult.notFound) ∧
    (∀ t, findTopic topics id = some t → CanViewTopicContent a t = false →
      fetchDetail a id topics posts = DetailResult.notFound) := by
  constructor
  · intro h
    unfold fetchDetail
    rw [h]
  · intro t h hv
    unfold fetchDetail
    rw [h]
    simp [hv]

/-- A banned-display topic used by the visibility witnesses. -/
def wBannedTopic : GroupTopic :=
  { id := 77, gid := 5, creatorID := 9, title := "banned", dateline := 10,
    lastpost := 10, replies := 1, display := TopicDisplay.Ban,
    state := ReplyState.Normal }

/-- Witness for `fetchDetail_notFound_indistinguishable`: a missing topic and
an existing-but-banned topic both yield `notFound` for a plain actor. -/
theorem fetchDetail_notFound_indistinguishable_witness :
    (findTopic [] 1 = none ∧ fetchDetail wAuth 1 [] [] = DetailResult.notFound) ∧
    (findTopic [wBannedTopic] 77 = some wBannedTopic ∧
      CanViewTopicContent wAuth wBannedTopic = false ∧
      fetchDetail wAuth 77 [wBannedTopic] [] = DetailResult.notFound) :=
  ⟨⟨by decide, (fetchDetail_notFound_indistinguishable wAuth 1 [] []).1 (by decide)⟩,
    ⟨by decide, by decide,
      (fetchDetail_notFound_indistinguishable wAuth 77 [wBannedTopic] []).2
        wBannedTopic (by decide) (by decide)⟩⟩

/-- C10: whenever `fetchDetail` succeeds, the returned view copies the top
post's stored `content` and creator id verbatim into `text`/`creatorID`
(whatever the top post's state), and the redaction transform is applied only
inside `renderReplies`, never to the top post. -/
theorem fetchDetail_top_post_unredacted (a : IAuth) (id : Nat)
    (topics : List GroupTopic) (posts : List GroupPost) (t : GroupTopic)
    (top : GroupPost) (rest : List GroupPost)
    (h1 : findTopic topics id = some t)
    (h2 : CanViewTopicContent a t = true)
    (h3 : posts.filter (fun p => p.topicID == t.id) = top :: rest) :
    fetchDetail a id topics posts =
      DetailResult.ok
        { id := t.id, title := t.title, parentID := t.gid, text := top.content,
          display := t.display, state := t.state,
          replies := renderReplies rest, creatorID := top.uid,
          createdAt := top.dateline } := by
  unfold fetchDetail
  rw [h1]
  simp [h2, h3]

/-- A viewable topic for the C10 witness. -/
def wDetailTopic : GroupTopic :=
  { id := 55, gid := 5, creatorID := 9, title := "thread", dateline := 10,
    lastpost := 10, replies := 1, display := TopicDisplay.Normal,
    state := ReplyState.Normal }

/-- The top post of `wDetailTopic`: user-deleted, yet rendered verbatim. -/
def wTopPost : GroupPost :=
  { id := 1, topicID := 55, uid := 9, related := 0, content := "original",
    state := ReplyState.UserDelete, dateline := 10 }

/-- The non-top posts of `wDetailTopic`. -/
def wRest : List GroupPost :=
  [ { id := 2, topicID := 55, uid := 8, related := 0, content := "re",
      state := ReplyState.Normal, dateline := 11 } ]

/-- Witness for `fetchDetail_top_post_unredacted`: even a user-deleted top
post keeps its stored content and creator in the rendered view. -/
theorem fetchDetail_top_post_unredacted_witness :
    (findTopic [wDetailTopic] 55 = some wDetailTopic ∧
      CanViewTopicContent wAuth wDetailTopic = true ∧
      (wTopPost :: wRest).filter (fun p => p.topicID == wDetailTopic.id) =
        wTopPost :: wRest) ∧
    fetchDetail wAuth 55 [wDetailTopic] (wTopPost :: wRest) =
      DetailResult.ok
        { id := wDetailTopic.id, title := wDetailTopic.title,
          parentID := wDetailTopic.gid, text := wTopPost.content,
          display := wDetailTopic.display, state := wDetailTopic.state,
          replies := renderReplies wRest, creatorID := wTopPost.uid,
          createdAt := wTopPost.dateline } :=
  ⟨⟨by decide, by decide, by decide⟩,
    fetchDetail_top_post_unredacted wAuth 55 [wDetailTopic] (wTopPost :: wRest)
      wDetailTopic wTopPost wRest (by decide) (by decide) (by decide)⟩
